import Mathlib

/-!
# Verification of the SeleniumFrame `Browser` facade

A shallow embedding of `src/browser.py`. The external Selenium driver is
modelled by a `Page` (what each selector matches, and whether the presence
wait succeeds) together with scripted click outcomes; each `Browser` method
becomes a Lean function returning the list of driver-level events it
performs (its trace) and an `Except`-style result, mirroring Python's
raised exceptions.
-/

namespace SeleniumFrame

/-- Locator strategies (`selenium.webdriver.common.by.By`). -/
inductive By
  | id
  | name
  | css_selector
  | xpath
  | tag_name
  | class_name
  | link_text
  deriving Repr, DecidableEq

/-- Python exceptions that the embedded methods can raise. -/
inductive PyError
  | timeoutExc
  | noSuchElement
  | indexError
  | clickIntercepted
  | otherExc (name : String)
  deriving Repr, DecidableEq

/-- The scripted outcome of one underlying click on an element. -/
inductive ClickResult
  | success
  | intercepted
  | otherExc (name : String)
  deriving Repr, DecidableEq

/-- A DOM element as the driver reports it: its rendered text, whether it
contains an `<a>` descendant, and the scripted outcome of clicking that
first link (used by `click_first_link_in_element`). -/
structure Element where
  text : String := ""
  hasLink : Bool := true
  linkClick : ClickResult := .success
  deriving Repr, DecidableEq

/-- Driver-level events emitted by the embedded methods, in order. -/
inductive Event
  | wait_present (strategy : By) (selector : String)
  | driver_find (strategy : By) (selector : String)
  | driver_find_all (strategy : By) (selector : String)
  | click_attempt
  | backoff_ms (ms : Nat)
  | settle_s (s : Nat)
  | clear_field
  | exec_script (code : String)
  deriving Repr, DecidableEq

/-- The state of the remote page, as the driver observes it: which elements
each `(strategy, selector)` pair matches (in DOM order; field `found`), and whether the
presence wait for that pair eventually succeeds within the ceiling.
`wait_ok` is independent of `found` because the wait and the subsequent
query are not atomic: an element may be present at wait time and gone by
query time. -/
structure Page where
  found : By → String → List Element
  wait_ok : By → String → Bool

/-- `Browser.wait_for_element_visible`: delegates to
`WebDriverWait.until(EC.presence_of_element_located((by, selector)))`. -/
def wait_for_element_visible (page : Page) (strategy : By) (selector : String) :
    List Event × Except PyError Unit :=
  ([.wait_present strategy selector],
    if page.wait_ok strategy selector then .ok () else .error .timeoutExc)

/-- `Browser.find_element`: waits for presence, then queries the driver for
a single element (`driver.find_element` raises `NoSuchElementException`
when nothing matches). -/
def find_element (page : Page) (strategy : By) (selector : String) :
    List Event × Except PyError Element :=
  match wait_for_element_visible page strategy selector with
  | (t, .error e) => (t, .error e)
  | (t, .ok ()) =>
    match page.found strategy selector with
    | [] => (t ++ [.driver_find strategy selector], .error .noSuchElement)
    | e :: _ => (t ++ [.driver_find strategy selector], .ok e)

/-- `Browser.find_elements`: waits for presence, then queries the driver
for all matches (`driver.find_elements` returns a possibly empty list). -/
def find_elements (page : Page) (strategy : By) (selector : String) :
    List Event × Except PyError (List Element) :=
  match wait_for_element_visible page strategy selector with
  | (t, .error e) => (t, .error e)
  | (t, .ok ()) =>
    (t ++ [.driver_find_all strategy selector], .ok (page.found strategy selector))

/-- Python's `str.strip()` whitespace set (ASCII part used by the model). -/
def pyIsSpace (c : Char) : Bool :=
  c = ' ' || c = '\t' || c = '\n' || c = '\r' || c = Char.ofNat 11 || c = Char.ofNat 12

/-- Python's `str.strip()`: drop whitespace from both ends. -/
def pyStrip (s : String) : String :=
  ⟨((s.data.dropWhile pyIsSpace).reverse.dropWhile pyIsSpace).reverse⟩

/-- `Browser.get_elements_text`: `[e.text.strip() for e in elements]`. -/
def get_elements_text (page : Page) (strategy : By) (selector : String) :
    List Event × Except PyError (List String) :=
  match find_elements page strategy selector with
  | (t, .error e) => (t, .error e)
  | (t, .ok els) => (t, .ok (els.map (fun e => pyStrip e.text)))

/-- `Browser.get_first_element_text`: `texts[0] if texts else None`. -/
def get_first_element_text (page : Page) (strategy : By) (selector : String) :
    List Event × Except PyError (Option String) :=
  match get_elements_text page strategy selector with
  | (t, .error e) => (t, .error e)
  | (t, .ok texts) => (t, .ok texts.head?)

/-- `Browser.get_cells_content`: `[cell.text.strip() for cell in cells]`
(the parameters are named `selector, selection` in the source; `selector`
plays the strategy role). -/
def get_cells_content (page : Page) (selector : By) (selection : String) :
    List Event × Except PyError (List String) :=
  match find_elements page selector selection with
  | (t, .error e) => (t, .error e)
  | (t, .ok cells) => (t, .ok (cells.map (fun c => pyStrip c.text)))

/-- `Browser.get_first_cell_result`: `cells_content[0]`, an unguarded
index that raises `IndexError` on an empty list. -/
def get_first_cell_result (page : Page) (selector : By) (selection : String) :
    List Event × Except PyError String :=
  match get_cells_content page selector selection with
  | (t, .error e) => (t, .error e)
  | (t, .ok cells_content) =>
    match cells_content with
    | [] => (t, .error .indexError)
    | x :: _ => (t, .ok x)

/-- The body of `click_by_selector`'s `while True:` loop. Each loop
iteration locates the element fresh via `find_element` and clicks it; the
scripted outcome of each successive click is taken from `script`.
`ElementClickInterceptedException` is caught, followed by
`time.sleep(0.2)` and another iteration; any other exception propagates.
`none` means the script ran out before the loop terminated (the loop is
unbounded, so a finite script may not finish it). -/
def click_loop (page : Page) (strategy : By) (selector : String) :
    List ClickResult → Option (List Event × Except PyError Unit)
  | [] => none
  | r :: rest =>
    match find_element page strategy selector with
    | (t, .error e) => some (t, .error e)
    | (t, .ok _) =>
      match r with
      | .success => some (t ++ [.click_attempt], .ok ())
      | .otherExc m => some (t ++ [.click_attempt], .error (.otherExc m))
      | .intercepted =>
        match click_loop page strategy selector rest with
        | none => none
        | some (t2, res) =>
          some (t ++ [.click_attempt, .backoff_ms 200] ++ t2, res)

/-- `Browser.click_by_selector`: the retry loop, then `self._sleep(1)`
after a successful click (the settle delay); an exception escaping the
loop skips the settle delay. -/
def click_by_selector (page : Page) (strategy : By) (selector : String)
    (script : List ClickResult) : Option (List Event × Except PyError Unit) :=
  match click_loop page strategy selector script with
  | none => none
  | some (t, .ok ()) => some (t ++ [.settle_s 1], .ok ())
  | some (t, .error e) => some (t, .error e)

/-- Maps a scripted click outcome to the result of a single raw click:
success returns, anything else (including the intercepted condition)
raises. -/
def rawClickResult : ClickResult → Except PyError Unit
  | .success => .ok ()
  | .intercepted => .error .clickIntercepted
  | .otherExc m => .error (.otherExc m)

/-- `Browser.click_first_link_in_element`:
`element = self.find_elements(by, selector)[0]` (an unguarded `[0]`),
then `element.find_element(By.TAG_NAME, "a")` (element-scoped, raises
`NoSuchElementException` when the container has no link), then a raw
`link.click()` with no retry and no settle delay. -/
def click_first_link_in_element (page : Page) (strategy : By) (selector : String) :
    List Event × Except PyError Unit :=
  match find_elements page strategy selector with
  | (t, .error e) => (t, .error e)
  | (t, .ok els) =>
    match els with
    | [] => (t, .error .indexError)
    | element :: _ =>
      if element.hasLink then
        (t ++ [.click_attempt], rawClickResult element.linkClick)
      else
        (t, .error .noSuchElement)

/-- Python list subscription `l[i]`, with negative-index wraparound:
`l[i]` is `l[len(l)+i]` for `-len(l) <= i < 0`, and raises `IndexError`
(here `none`) outside `[-len(l), len(l))`. -/
def pyGetItem (l : List α) (i : Int) : Option α :=
  if 0 ≤ i then l.get? i.toNat
  else if -(l.length : Int) ≤ i then l.get? ((l.length : Int) + i).toNat
  else none

/-- The normalised (non-negative) position that `l[i]` denotes. -/
def pyIndexPos (len : Nat) (i : Int) : Nat :=
  if 0 ≤ i then i.toNat else ((len : Int) + i).toNat

/-- The `for i in indexes:` loop of `click_checkboxes_by_index_and_class`:
`if i < len(checkboxes): checkboxes[i].click()`. Returns the list of
normalised positions clicked, in order, or the `IndexError` raised when a
guard-passing subscription still falls outside the list (a negative `i`
below `-len(checkboxes)`). -/
def checkbox_loop (checkboxes : List Element) : List Int → Except PyError (List Nat)
  | [] => .ok []
  | i :: rest =>
    if i < (checkboxes.length : Int) then
      match pyGetItem checkboxes i with
      | none => .error .indexError
      | some _ =>
        match checkbox_loop checkboxes rest with
        | .error e => .error e
        | .ok ps => .ok (pyIndexPos checkboxes.length i :: ps)
    else checkbox_loop checkboxes rest

/-- A single-quote character, used when the source builds selectors with
quoted attribute values. -/
def sq : String := ⟨[Char.ofNat 39]⟩

/-- `Browser.click_checkboxes_by_index_and_class`: finds
`input.{selector}[type='checkbox']`, then clicks the checkbox at each
index that passes the `i < len(checkboxes)` guard. -/
def click_checkboxes_by_index_and_class (page : Page) (selector : String)
    (indexes : List Int) : List Event × Except PyError (List Nat) :=
  match find_elements page By.css_selector
      ("input." ++ selector ++ "[type=" ++ sq ++ "checkbox" ++ sq ++ "]") with
  | (t, .error e) => (t, .error e)
  | (t, .ok checkboxes) => (t, checkbox_loop checkboxes indexes)

/-- The browser session object: `Browser.__init__(self, headless=False)`
stores the driver plus `WebDriverWait(self.driver, 3 * 3600)`. The wait
ceiling (in seconds) is recorded in `wait_timeout`. -/
structure Browser where
  headless : Bool
  wait_timeout : Nat
  deriving Repr, DecidableEq

/-- `Browser.__init__`: `headless` is the only parameter; the wait ceiling
is the constant `3 * 3600` seconds. -/
def Browser.init (headless : Bool) : Browser :=
  { headless := headless, wait_timeout := 3 * 3600 }

/-- The outcome of a `WebDriverWait.until` call, with the elapsed time at
which it returned. -/
inductive WaitResult
  | found (t : Nat)
  | timedOut (t : Nat)
  deriving Repr, DecidableEq

/-- Selenium's `WebDriverWait.until` polling loop: check the predicate at
the current time; if satisfied return; otherwise sleep one poll interval
and raise `TimeoutException` once the elapsed time exceeds the ceiling.
`fuel` bounds the number of modelled iterations (`none` = the loop is
still running after `fuel` polls). -/
def wait_until (pred : Nat → Bool) (timeout poll : Nat) :
    Nat → Nat → Option WaitResult
  | 0, _ => none
  | fuel + 1, now =>
    if pred now then some (.found now)
    else if timeout < now + poll then some (.timedOut (now + poll))
    else wait_until pred timeout poll fuel (now + poll)

/-- A presence predicate that is never satisfied. -/
def neverPresent : Nat → Bool := fun _ => false

/-- Lowercase hexadecimal digit for `n < 16`, as `json.dumps` emits. -/
def hexDig (n : Nat) : Char :=
  if n < 10 then Char.ofNat (48 + n) else Char.ofNat (87 + n)

/-- The four hex digits of `n < 0x10000`, most significant first. -/
def hex4 (n : Nat) : List Char :=
  [hexDig (n / 4096 % 16), hexDig (n / 256 % 16), hexDig (n / 16 % 16), hexDig (n % 16)]

/-- Value of one hexadecimal digit character. -/
def unhexDig (c : Char) : Option Nat :=
  if 48 ≤ c.toNat ∧ c.toNat ≤ 57 then some (c.toNat - 48)
  else if 97 ≤ c.toNat ∧ c.toNat ≤ 102 then some (c.toNat - 87)
  else if 65 ≤ c.toNat ∧ c.toNat ≤ 70 then some (c.toNat - 55)
  else none

/-- Value of a four-hex-digit group, most significant first. -/
def fromHex4 (a b c d : Char) : Option Nat :=
  match unhexDig a, unhexDig b, unhexDig c, unhexDig d with
  | some x, some y, some z, some w => some (4096 * x + 256 * y + 16 * z + w)
  | _, _, _, _ => none

/-- `json.dumps` escaping of one character (default `ensure_ascii=True`):
backslash, double quote and the five short escapes are written with a
backslash; other printable ASCII is literal; everything else (control
characters and all non-ASCII) becomes `\uXXXX`, with a surrogate pair for
codepoints above `0xFFFF`. -/
def encodeChar (c : Char) : List Char :=
  if c = '"' then ['\\', '"']
  else if c = '\\' then ['\\', '\\']
  else if c = Char.ofNat 8 then ['\\', 'b']
  else if c = Char.ofNat 12 then ['\\', 'f']
  else if c = '\n' then ['\\', 'n']
  else if c = '\r' then ['\\', 'r']
  else if c = '\t' then ['\\', 't']
  else if 32 ≤ c.toNat ∧ c.toNat ≤ 126 then [c]
  else if c.toNat < 65536 then '\\' :: 'u' :: hex4 c.toNat
  else
    '\\' :: 'u' :: hex4 (55296 + (c.toNat - 65536) / 1024) ++
      '\\' :: 'u' :: hex4 (56320 + (c.toNat - 65536) % 1024)

/-- Python's `json.dumps` on a string value: a double-quoted literal with
every character escaped by `encodeChar`. -/
def json_dumps (s : String) : String :=
  ⟨'"' :: (s.data.map encodeChar).flatten ++ ['"']⟩

/-- JavaScript short escape sequences (`\x` for the characters produced by
a JSON encoder; unknown escapes are rejected by this strict reader). -/
def jsEsc (e : Char) : Option Char :=
  if e = '"' then some '"'
  else if e = '\\' then some '\\'
  else if e = '/' then some '/'
  else if e = 'b' then some (Char.ofNat 8)
  else if e = 'f' then some (Char.ofNat 12)
  else if e = 'n' then some '\n'
  else if e = 'r' then some '\r'
  else if e = 't' then some '\t'
  else none

/-- Reads one backslash escape (the backslash already consumed) as a JS
engine tokenises it: a short escape, or `\uXXXX` with a following
`\uXXXX` low surrogate when the first group is a high surrogate. Fails
on a malformed escape or a lone surrogate (not representable as a
unicode scalar value). Returns the decoded character and the rest. -/
def jsReadEscape : List Char → Option (Char × List Char)
  | [] => none
  | e :: r =>
    if e = 'u' then
      match r with
      | h1 :: h2 :: h3 :: h4 :: r2 =>
        match fromHex4 h1 h2 h3 h4 with
        | none => none
        | some n =>
          if n < 55296 ∨ 57344 ≤ n then some (Char.ofNat n, r2)
          else if n < 56320 then
            match r2 with
            | b1 :: b2 :: b3 :: b4 :: b5 :: b6 :: r3 =>
              if b1 = '\\' ∧ b2 = 'u' then
                match fromHex4 b3 b4 b5 b6 with
                | none => none
                | some m =>
                  if 56320 ≤ m ∧ m < 57344 then
                    some (Char.ofNat (65536 + (n - 55296) * 1024 + (m - 56320)), r3)
                  else none
              else none
            | _ => none
          else none
      | _ => none
    else
      match jsEsc e with
      | none => none
      | some d => some (d, r)

/-- Reads the body of a JavaScript double-quoted string literal (the
opening quote already consumed) exactly as a JS engine tokenises it:
stops at the closing quote, decodes backslash escapes via
`jsReadEscape`, and fails on an unterminated literal or a raw line
terminator inside the literal. Returns the decoded characters and the
input after the closing quote. -/
def jsParseStr : List Char → Option (List Char × List Char)
  | [] => none
  | c :: rest =>
    if c = '"' then some ([], rest)
    else if c = '\\' then
      match _hE : jsReadEscape rest with
      | none => none
      | some (d, r) =>
        (jsParseStr r).map (fun p => (d :: p.1, p.2))
    else if c = '\n' ∨ c = '\r' then none
    else (jsParseStr rest).map (fun p => (c :: p.1, p.2))
  termination_by l => l.length
  decreasing_by
  · rename_i rest0 _ _
    simp only [List.length_cons]
    have hle : r.length ≤ rest0.length := by
      unfold jsReadEscape at _hE
      repeat' split at _hE
      all_goals simp_all
      all_goals omega
    omega
  · simp only [List.length_cons]
    omega

/-- Reads a complete JavaScript double-quoted string literal. -/
def jsParseStrLit : List Char → Option (List Char × List Char)
  | c :: rest => if c = '"' then jsParseStr rest else none
  | [] => none

/-- Drops an expected literal prefix, or fails. -/
def stripPrefixChars : List Char → List Char → Option (List Char)
  | [], rest => some rest
  | p :: ps, c :: cs => if c = p then stripPrefixChars ps cs else none
  | _ :: _, [] => none

/-- Executes a script of the exact shape the JS fill methods build:
`arguments[0].value = <string literal>;`. The result is the value the
field ends up holding, or `none` when the script does not tokenise as
that statement (a broken literal would throw in the browser and leave the
cleared field unchanged). -/
def execute_set_value_script (script : String) : Option String :=
  match stripPrefixChars "arguments[0].value = ".data script.data with
  | none => none
  | some rest =>
    match jsParseStrLit rest with
    | some (v, [';']) => some ⟨v⟩
    | _ => none

/-- `Browser.fill_input_by_name_js`: locate by name, `field.clear()`,
escape the value with `json.dumps`, and run
`arguments[0].value = {escaped};`. The result carries the field's final
content. -/
def fill_input_by_name_js (page : Page) (name value : String) :
    List Event × Except PyError (Option String) :=
  match find_element page By.name name with
  | (t, .error e) => (t, .error e)
  | (t, .ok _) =>
    let escaped := json_dumps value
    let script := "arguments[0].value = " ++ escaped ++ ";"
    (t ++ [.clear_field, .exec_script script], .ok (execute_set_value_script script))

/-- `Browser.fill_input_by_placeholder_js`: like `fill_input_by_name_js`
but locating via the XPath `//input[@placeholder='{placeholder}']`. -/
def fill_input_by_placeholder_js (page : Page) (placeholder value : String) :
    List Event × Except PyError (Option String) :=
  match find_element page By.xpath
      ("//input[@placeholder=" ++ sq ++ placeholder ++ sq ++ "]") with
  | (t, .error e) => (t, .error e)
  | (t, .ok _) =>
    let escaped := json_dumps value
    let script := "arguments[0].value = " ++ escaped ++ ";"
    (t ++ [.clear_field, .exec_script script], .ok (execute_set_value_script script))

/-! ## Example pages used as concrete witnesses -/

/-- A page on which every selector matches three elements with texts
`" a "`, `"b"`, `" c "`, and every presence wait succeeds. -/
def stripPage : Page :=
  { found := fun _ _ => [{ text := " a " }, { text := "b" }, { text := " c " }],
    wait_ok := fun _ _ => true }

/-- A page on which every presence wait succeeds but every query matches
zero elements (the element was present at wait time, gone at query time). -/
def noMatchPage : Page :=
  { found := fun _ _ => [], wait_ok := fun _ _ => true }

/-- A page on which every selector matches one default element and every
presence wait succeeds. -/
def onePage : Page :=
  { found := fun _ _ => [{}], wait_ok := fun _ _ => true }

/-- One locate-and-click iteration of the retry loop that ends in a
backoff (the intercepted case). -/
def retryBlock (st : By) (sel : String) : List Event :=
  [.wait_present st sel, .driver_find st sel, .click_attempt, .backoff_ms 200]

/-- Number of underlying click attempts recorded in a trace. -/
def clickAttempts (t : List Event) : Nat :=
  t.countP (fun ev => ev = Event.click_attempt)

/-- A page whose every selector matches four default checkboxes. -/
def fourBoxPage : Page :=
  { found := fun _ _ => List.replicate 4 {}, wait_ok := fun _ _ => true }

/-! ## Shared locator lemmas -/

/-- When the wait succeeds and the selector matches, `find_element`
returns the first match after the wait and the driver query. -/
theorem find_element_ok (page : Page) (st : By) (sel : String)
    (e : Element) (es : List Element)
    (hw : page.wait_ok st sel = true) (hm : page.found st sel = e :: es) :
    find_element page st sel =
      ([.wait_present st sel, .driver_find st sel], .ok e) := by
  simp [find_element, wait_for_element_visible, hw, hm]

/-- When the wait succeeds, `find_elements` returns all matches after the
wait and the driver query. -/
theorem find_elements_ok (page : Page) (st : By) (sel : String)
    (hw : page.wait_ok st sel = true) :
    find_elements page st sel =
      ([.wait_present st sel, .driver_find_all st sel],
        .ok (page.found st sel)) := by
  simp [find_elements, wait_for_element_visible, hw]

/-! ## C1: `get_first_element_text` on an empty match -/

/-- C1 counterexample: on a page whose presence wait succeeds but whose
query matches zero elements, `get_first_element_text` does NOT fail with
an Empty/NotFound error — it returns the null placeholder `none`
(Python's `None`), refuting the claim at this concrete input. -/
theorem C1_cex_first_text_returns_none :
    get_first_element_text noMatchPage By.css_selector "tr.result" =
      ([.wait_present By.css_selector "tr.result",
        .driver_find_all By.css_selector "tr.result"], .ok none) := by
  rfl

/-- C1 (amended): for every selector that matches zero elements after the
presence wait succeeds, `get_first_element_text` returns `None` (a null
placeholder) rather than raising any error. -/
theorem C1_first_text_empty_gives_none (page : Page) (st : By) (sel : String)
    (hw : page.wait_ok st sel = true) (hm : page.found st sel = []) :
    get_first_element_text page st sel =
      ([.wait_present st sel, .driver_find_all st sel], .ok none) := by
  simp [get_first_element_text, get_elements_text, find_elements_ok page st sel hw, hm]

/-- C1 witness: the amended theorem applied to a concrete empty-match
page. -/
theorem C1_witness :
    get_first_element_text noMatchPage By.xpath "//li[@class=22]" =
      ([.wait_present By.xpath "//li[@class=22]",
        .driver_find_all By.xpath "//li[@class=22]"], .ok none) :=
  C1_first_text_empty_gives_none noMatchPage By.xpath "//li[@class=22]" rfl rfl

/-! ## C4: every locate operation waits before querying -/

/-- C4: both locate operations (`find_element` and `find_elements`) emit
the element-present wait for the same `(strategy, selector)` pair as
their first driver-level event, and query the driver only afterwards
(and only when that wait succeeded). -/
theorem C4_locate_waits_before_query (page : Page) (st : By) (sel : String) :
    (find_element page st sel).1 =
      .wait_present st sel ::
        (if page.wait_ok st sel then [.driver_find st sel] else []) ∧
    (find_elements page st sel).1 =
      .wait_present st sel ::
        (if page.wait_ok st sel then [.driver_find_all st sel] else []) := by
  constructor
  · by_cases hw : page.wait_ok st sel <;>
      cases hm : page.found st sel <;>
        simp [find_element, wait_for_element_visible, hw, hm]
  · by_cases hw : page.wait_ok st sel <;>
      simp [find_elements, wait_for_element_visible, hw]

/-! ## C5: `get_elements_text` trims and preserves DOM order -/

/-- C5: after a successful presence wait, `get_elements_text` returns the
whitespace-trimmed text of each matched element, in exactly the order the
driver returned the elements. -/
theorem C5_texts_trimmed_in_dom_order (page : Page) (st : By) (sel : String)
    (hw : page.wait_ok st sel = true) :
    get_elements_text page st sel =
      ([.wait_present st sel, .driver_find_all st sel],
        .ok ((page.found st sel).map (fun e => pyStrip e.text))) := by
  simp [get_elements_text, find_elements_ok page st sel hw]

/-- C5 witness: for matched texts `" a "`, `"b"`, `" c "` the result is
exactly `["a", "b", "c"]`. -/
theorem C5_witness :
    get_elements_text stripPage By.css_selector "li.item" =
      ([.wait_present By.css_selector "li.item",
        .driver_find_all By.css_selector "li.item"],
        .ok ["a", "b", "c"]) := by
  have h := C5_texts_trimmed_in_dom_order stripPage By.css_selector "li.item" rfl
  exact h.trans (by rfl)

/-! ## C10: the two first-element accessors disagree on empty matches -/

/-- C10: on a selector matching zero elements after a successful presence
wait, `get_first_cell_result` raises `IndexError` (its `[0]` access is
unguarded) while `get_first_element_text` returns `None` — the two
first-element accessors disagree on the empty-match edge case. -/
theorem C10_first_cell_vs_first_text_on_empty (page : Page) (sel : By)
    (selection : String) (hw : page.wait_ok sel selection = true)
    (hm : page.found sel selection = []) :
    get_first_cell_result page sel selection =
      ([.wait_present sel selection, .driver_find_all sel selection],
        .error .indexError) ∧
    get_first_element_text page sel selection =
      ([.wait_present sel selection, .driver_find_all sel selection],
        .ok none) := by
  constructor
  · simp [get_first_cell_result, get_cells_content,
      find_elements_ok page sel selection hw, hm]
  · simp [get_first_element_text, get_elements_text,
      find_elements_ok page sel selection hw, hm]

/-- C10 witness: the disagreement at a concrete empty-match page. -/
theorem C10_witness :
    get_first_cell_result noMatchPage By.css_selector "td.amount" =
      ([.wait_present By.css_selector "td.amount",
        .driver_find_all By.css_selector "td.amount"],
        .error .indexError) ∧
    get_first_element_text noMatchPage By.css_selector "td.amount" =
      ([.wait_present By.css_selector "td.amount",
        .driver_find_all By.css_selector "td.amount"],
        .ok none) :=
  C10_first_cell_vs_first_text_on_empty noMatchPage By.css_selector "td.amount" rfl rfl

/-! ## C2 / C3: the click-intercept retry loop -/

/-- The loop body on a script of `N` intercepts followed by a success:
`N` backoff blocks and then a final successful locate-and-click. -/
theorem click_loop_retry (page : Page) (st : By) (sel : String)
    (hw : page.wait_ok st sel = true)
    (e : Element) (es : List Element) (hm : page.found st sel = e :: es) :
    ∀ N : Nat,
      click_loop page st sel (List.replicate N .intercepted ++ [.success]) =
        some ((List.replicate N (retryBlock st sel)).flatten ++
          [.wait_present st sel, .driver_find st sel, .click_attempt], .ok ()) := by
  intro N
  induction N with
  | zero =>
    simp [click_loop, find_element_ok page st sel e es hw hm]
  | succ n ih =>
    rw [List.replicate_succ, List.cons_append]
    rw [List.replicate_succ, List.flatten_cons]
    simp only [click_loop, find_element_ok page st sel e es hw hm, ih]
    simp [retryBlock]

/-- C2: when the driver reports the click-intercepted condition on each of
the first `N` click attempts and then succeeds, `click_by_selector`
returns successfully; its trace is exactly `N` blocks of
(wait, fresh locate, click attempt, 200 ms backoff) followed by one
(wait, fresh locate, click attempt) and the 1 s settle delay — so exactly
`N + 1` click attempts, a fresh locate before every attempt, a backoff
between consecutive attempts, and this holds for every `N` (no retry-count
cap). -/
theorem C2_click_retry_n_plus_one (page : Page) (st : By) (sel : String)
    (hw : page.wait_ok st sel = true)
    (e : Element) (es : List Element) (hm : page.found st sel = e :: es)
    (N : Nat) :
    click_by_selector page st sel (List.replicate N .intercepted ++ [.success]) =
      some ((List.replicate N (retryBlock st sel)).flatten ++
        [.wait_present st sel, .driver_find st sel, .click_attempt,
          .settle_s 1], .ok ()) ∧
    clickAttempts ((List.replicate N (retryBlock st sel)).flatten ++
        [.wait_present st sel, .driver_find st sel, .click_attempt,
          .settle_s 1]) = N + 1 := by
  constructor
  · simp [click_by_selector, click_loop_retry page st sel hw e es hm N]
  · induction N with
    | zero => simp [clickAttempts, retryBlock]
    | succ n ih =>
      rw [List.replicate_succ, List.flatten_cons, List.append_assoc]
      simp only [clickAttempts, List.countP_append] at ih ⊢
      simp only [retryBlock, List.countP_cons, List.countP_nil]
      simp only [retryBlock, List.countP_cons, List.countP_nil] at ih
      simp_all
      omega

/-- C2 witness: two intercepted attempts then success against a concrete
page — twelve events, three click attempts. -/
theorem C2_witness :
    click_by_selector onePage By.css_selector "button.submit"
        [.intercepted, .intercepted, .success] =
      some ([.wait_present By.css_selector "button.submit",
        .driver_find By.css_selector "button.submit", .click_attempt,
        .backoff_ms 200,
        .wait_present By.css_selector "button.submit",
        .driver_find By.css_selector "button.submit", .click_attempt,
        .backoff_ms 200,
        .wait_present By.css_selector "button.submit",
        .driver_find By.css_selector "button.submit", .click_attempt,
        .settle_s 1], .ok ()) ∧
    clickAttempts
      [Event.wait_present By.css_selector "button.submit",
        Event.driver_find By.css_selector "button.submit", Event.click_attempt,
        Event.backoff_ms 200,
        Event.wait_present By.css_selector "button.submit",
        Event.driver_find By.css_selector "button.submit", Event.click_attempt,
        Event.backoff_ms 200,
        Event.wait_present By.css_selector "button.submit",
        Event.driver_find By.css_selector "button.submit", Event.click_attempt,
        Event.settle_s 1] = 3 := by
  have h := C2_click_retry_n_plus_one onePage By.css_selector "button.submit"
    rfl {} [] rfl 2
  exact ⟨h.1.trans (by rfl), h.2⟩

/-- C3: when the first underlying click attempt raises any exception
other than the click-intercepted condition, `click_by_selector`
propagates it immediately: the trace is a single (wait, locate, click)
with no backoff and no settle delay — exactly one attempt. -/
theorem C3_click_fatal_no_retry (page : Page) (st : By) (sel : String)
    (hw : page.wait_ok st sel = true)
    (e : Element) (es : List Element) (hm : page.found st sel = e :: es)
    (msg : String) :
    click_by_selector page st sel [.otherExc msg] =
      some ([.wait_present st sel, .driver_find st sel, .click_attempt],
        .error (.otherExc msg)) := by
  simp [click_by_selector, click_loop, find_element_ok page st sel e es hw hm]

/-- C3 witness: a stale-element failure on the first attempt against a
concrete page. -/
theorem C3_witness :
    click_by_selector onePage By.id "save" [.otherExc "StaleElementReferenceException"] =
      some ([.wait_present By.id "save", .driver_find By.id "save",
        .click_attempt],
        .error (.otherExc "StaleElementReferenceException")) :=
  C3_click_fatal_no_retry onePage By.id "save" rfl {} [] rfl
    "StaleElementReferenceException"

/-! ## C9: `click_first_link_in_element` has no reliability machinery -/

/-- C9: `click_first_link_in_element` performs a single raw click on the
located link: the trace holds exactly one click attempt with no backoff
and no settle delay, and the result is whatever the raw click produced —
in particular the click-intercepted condition surfaces to the caller as
an error instead of being retried. -/
theorem C9_first_link_click_is_raw (page : Page) (st : By) (sel : String)
    (el : Element) (rest : List Element)
    (hw : page.wait_ok st sel = true) (hm : page.found st sel = el :: rest)
    (hl : el.hasLink = true) :
    click_first_link_in_element page st sel =
      ([.wait_present st sel, .driver_find_all st sel, .click_attempt],
        rawClickResult el.linkClick) ∧
    rawClickResult .intercepted = .error .clickIntercepted := by
  constructor
  · simp [click_first_link_in_element, find_elements_ok page st sel hw, hm, hl]
  · rfl

/-- C9 witness: a container whose link click is intercepted — the
exception propagates and no backoff or settle event appears. -/
theorem C9_witness :
    click_first_link_in_element
        (Page.mk (fun _ _ => [{ hasLink := true, linkClick := .intercepted }])
          (fun _ _ => true))
        By.css_selector "div.card" =
      ([.wait_present By.css_selector "div.card",
        .driver_find_all By.css_selector "div.card", .click_attempt],
        .error .clickIntercepted) :=
  (C9_first_link_click_is_raw
    (Page.mk (fun _ _ => [{ hasLink := true, linkClick := .intercepted }])
      (fun _ _ => true))
    By.css_selector "div.card"
    { hasLink := true, linkClick := .intercepted } [] rfl rfl rfl).1

/-! ## C7: checkbox toggling by index -/

/-- C7, evaluated at the failing input: against 4 matched checkboxes the
index list `[-5]` passes the `i < len(checkboxes)` guard (Python compares
the signed values) and then `checkboxes[-5]` raises `IndexError` — the
claim that out-of-range indexes are always silently skipped fails for
negative indexes below `-len`. At the claim's own example `[0, 2, 5]`
the positive out-of-range index 5 is skipped and exactly the checkboxes
at positions 0 and 2 are clicked. -/
theorem C7_checkbox_negative_index_raises :
    (click_checkboxes_by_index_and_class fourBoxPage "option" [-5]).2 =
      .error .indexError ∧
    (click_checkboxes_by_index_and_class fourBoxPage "option" [0, 2, 5]).2 =
      .ok [0, 2] :=
  ⟨rfl, rfl⟩

/-! ## C8: the wait ceiling -/

/-- C8 counterexample: the wait ceiling is not configurable.
`Browser.__init__`'s only parameter is `headless`; for both possible
arguments the stored ceiling is the same hardcoded `3 * 3600 = 10800`
seconds. -/
theorem C8_cex_ceiling_hardcoded :
    (Browser.init true).wait_timeout = 10800 ∧
    (Browser.init false).wait_timeout = 10800 :=
  ⟨rfl, rfl⟩

/-- C8 (amended): every constructed browser session carries the fixed,
hardcoded wait ceiling `3 * 3600` seconds (it is not a configurable
parameter), and for a presence predicate that never becomes true the wait
loop fails with Timeout just past the ceiling: at an elapsed time `t`
with `timeout < t ≤ timeout + poll` (not before the ceiling, and at most
one poll interval past it), provided the modelled fuel covers the
ceiling. -/
theorem C8_wait_times_out_at_fixed_ceiling :
    (∀ headless, (Browser.init headless).wait_timeout = 3 * 3600) ∧
    ∀ timeout poll fuel now : Nat, 0 < poll → now ≤ timeout →
      timeout < now + fuel * poll →
      ∃ t, wait_until neverPresent timeout poll fuel now =
          some (.timedOut t) ∧ timeout < t ∧ t ≤ timeout + poll := by
  refine ⟨fun _ => rfl, ?_⟩
  intro timeout poll fuel
  induction fuel with
  | zero => intro now _ hle hcov; omega
  | succ n ih =>
    intro now hp hle hcov
    rw [wait_until]
    simp only [neverPresent, Bool.false_eq_true, if_false]
    by_cases hstop : timeout < now + poll
    · exact ⟨now + poll, by rw [if_pos hstop], hstop, by omega⟩
    · rw [if_neg hstop]
      rw [Nat.succ_mul] at hcov
      exact ih (now + poll) hp (by omega) (by omega)

/-- C8 witness: with ceiling 4 and poll interval 2 the never-present wait
times out at elapsed time in (4, 6]; the hardcoded ceiling is also
instantiated. -/
theorem C8_witness :
    (Browser.init true).wait_timeout = 3 * 3600 ∧
    ∃ t, wait_until neverPresent 4 2 3 0 = some (.timedOut t) ∧
      4 < t ∧ t ≤ 6 :=
  ⟨C8_wait_times_out_at_fixed_ceiling.1 true,
    C8_wait_times_out_at_fixed_ceiling.2 4 2 3 0 (by decide) (by decide)
      (by decide)⟩

/-! ## C6: script-injected fill round-trips every value exactly -/

/-- Reading back a hex digit returns its value. -/
theorem unhex_hexDig : ∀ d < 16, unhexDig (hexDig d) = some d := by decide

/-- Reading back the four hex digits of `n < 0x10000` returns `n`. -/
theorem fromHex4_hex4 (n : Nat) (h : n < 65536) :
    fromHex4 (hexDig (n / 4096 % 16)) (hexDig (n / 256 % 16))
      (hexDig (n / 16 % 16)) (hexDig (n % 16)) = some n := by
  have h1 := unhex_hexDig (n / 4096 % 16) (Nat.mod_lt _ (by norm_num))
  have h2 := unhex_hexDig (n / 256 % 16) (Nat.mod_lt _ (by norm_num))
  have h3 := unhex_hexDig (n / 16 % 16) (Nat.mod_lt _ (by norm_num))
  have h4 := unhex_hexDig (n % 16) (Nat.mod_lt _ (by norm_num))
  simp only [fromHex4, h1, h2, h3, h4]
  congr 1
  omega

/-- A `Char` is a unicode scalar value: below the surrogate range or
between it and `0x110000`. -/
theorem char_scalar (c : Char) :
    c.toNat < 55296 ∨ (57343 < c.toNat ∧ c.toNat < 1114112) :=
  c.valid

/-- Parsing a backslash escape delegates to `jsReadEscape` and continues
with the remainder. -/
theorem jsParseStr_backslash (l rest : List Char) (d : Char)
    (hE : jsReadEscape l = some (d, rest)) :
    jsParseStr ('\\' :: l) = (jsParseStr rest).map (fun p => (d :: p.1, p.2)) := by
  simp only [jsParseStr]
  rw [if_neg (show ¬(('\\' : Char) = '"') by decide), if_pos trivial]
  split
  · next heq => rw [hE] at heq; cases heq
  · next d2 r2 heq =>
    rw [hE] at heq
    injection heq with h
    injection h with hd hr
    subst hd
    subst hr
    rfl

/-- A character that is not a quote, a backslash or a line terminator is
consumed literally. -/
theorem jsParseStr_raw (c : Char) (rest : List Char) (h1 : ¬(c = '"'))
    (h2 : ¬(c = '\\')) (h3 : ¬(c = '\n')) (h4 : ¬(c = '\r')) :
    jsParseStr (c :: rest) = (jsParseStr rest).map (fun p => (c :: p.1, p.2)) := by
  simp only [jsParseStr]
  rw [if_neg h1, if_neg h2, if_neg (not_or.mpr ⟨h3, h4⟩)]

/-- Reading a `\uXXXX` escape of a non-surrogate codepoint. -/
theorem jsReadEscape_u (n : Nat) (hn : n < 65536) (hs : n < 55296 ∨ 57344 ≤ n)
    (rest : List Char) :
    jsReadEscape ('u' :: (hex4 n ++ rest)) = some (Char.ofNat n, rest) := by
  simp only [hex4, List.cons_append, List.nil_append, jsReadEscape, if_pos]
  rw [fromHex4_hex4 n hn]
  simp [hs]

/-- Reading a high-surrogate `\uXXXX` followed by a low-surrogate
`\uXXXX` recombines them into one supplementary-plane codepoint. -/
theorem jsReadEscape_u_pair (n1 n2 : Nat) (ha : 55296 ≤ n1) (hb : n1 < 56320)
    (hc : 56320 ≤ n2) (hd : n2 < 57344) (rest : List Char) :
    jsReadEscape ('u' :: (hex4 n1 ++ ('\\' :: 'u' :: (hex4 n2 ++ rest)))) =
      some (Char.ofNat (65536 + (n1 - 55296) * 1024 + (n2 - 56320)), rest) := by
  simp only [hex4, List.cons_append, List.nil_append, jsReadEscape, if_pos]
  simp only [fromHex4_hex4 n1 (by omega), fromHex4_hex4 n2 (by omega)]
  rw [if_neg (show ¬(n1 < 55296 ∨ 57344 ≤ n1) by omega), if_pos hb]
  rw [if_pos (show True ∧ True by decide)]
  rw [if_pos (show 56320 ≤ n2 ∧ n2 < 57344 from ⟨hc, hd⟩)]

/-- One encoded character parses back to exactly that character, leaving
the remainder untouched. -/
theorem jsParse_encode (c : Char) (rest : List Char) :
    jsParseStr (encodeChar c ++ rest) =
      (jsParseStr rest).map (fun p => (c :: p.1, p.2)) := by
  have hval := char_scalar c
  unfold encodeChar
  split_ifs with h1 h2 h3 h4 h5 h6 h7 h8 h9
  · subst h1; exact jsParseStr_backslash _ _ _ rfl
  · subst h2; exact jsParseStr_backslash _ _ _ rfl
  · subst h3; exact jsParseStr_backslash _ _ _ rfl
  · subst h4; exact jsParseStr_backslash _ _ _ rfl
  · subst h5; exact jsParseStr_backslash _ _ _ rfl
  · subst h6; exact jsParseStr_backslash _ _ _ rfl
  · subst h7; exact jsParseStr_backslash _ _ _ rfl
  · exact jsParseStr_raw c rest h1 h2 h5 h6
  · have hs : c.toNat < 55296 ∨ 57344 ≤ c.toNat := by omega
    have h := jsParseStr_backslash ('u' :: (hex4 c.toNat ++ rest)) rest
      (Char.ofNat c.toNat) (jsReadEscape_u c.toNat h9 hs rest)
    rw [Char.ofNat_toNat] at h
    exact h
  · have h := jsParseStr_backslash
      ('u' :: (hex4 (55296 + (c.toNat - 65536) / 1024) ++
        ('\\' :: 'u' :: (hex4 (56320 + (c.toNat - 65536) % 1024) ++ rest)))) rest
      (Char.ofNat (65536 +
        (55296 + (c.toNat - 65536) / 1024 - 55296) * 1024 +
        (56320 + (c.toNat - 65536) % 1024 - 56320)))
      (jsReadEscape_u_pair (55296 + (c.toNat - 65536) / 1024)
        (56320 + (c.toNat - 65536) % 1024)
        (by omega) (by omega) (by omega) (by omega) rest)
    rw [show (65536 + (55296 + (c.toNat - 65536) / 1024 - 55296) * 1024 +
        (56320 + (c.toNat - 65536) % 1024 - 56320)) = c.toNat by omega,
      Char.ofNat_toNat] at h
    exact h

/-- A fully encoded character sequence followed by the closing quote
parses back to exactly that sequence. -/
theorem jsParse_encodeList (l rest : List Char) :
    jsParseStr ((l.map encodeChar).flatten ++ ('"' :: rest)) = some (l, rest) := by
  induction l with
  | nil => simp [jsParseStr]
  | cons c l ih =>
    simp only [List.map_cons, List.flatten_cons, List.append_assoc]
    rw [jsParse_encode c _, ih]
    rfl

/-- Dropping a prefix that is literally present succeeds. -/
theorem stripPrefixChars_append (p r : List Char) :
    stripPrefixChars p (p ++ r) = some r := by
  induction p with
  | nil => rfl
  | cons c p ih => simp [stripPrefixChars, ih]

/-- The crux of the escaping claim: executing the exact script the JS
fill methods build — `arguments[0].value = {json.dumps(value)};` — sets
the field to the original value, for every value. -/
theorem execute_set_value_roundtrip (v : String) :
    execute_set_value_script ("arguments[0].value = " ++ json_dumps v ++ ";") = some v := by
  unfold execute_set_value_script
  rw [show ("arguments[0].value = " ++ json_dumps v ++ ";").data
      = "arguments[0].value = ".data ++ ((json_dumps v).data ++ [';']) by
    simp [String.data_append]]
  rw [stripPrefixChars_append]
  show (match jsParseStrLit (('"' :: ((v.data.map encodeChar).flatten ++ ['"'])) ++ [';']) with
    | some (w, [';']) => some (String.mk w)
    | _ => none) = some v
  rw [show ('"' :: ((v.data.map encodeChar).flatten ++ ['"'])) ++ [';']
      = '"' :: ((v.data.map encodeChar).flatten ++ ('"' :: [';'])) by simp]
  show (match jsParseStr ((v.data.map encodeChar).flatten ++ ('"' :: [';'])) with
    | some (w, [';']) => some (String.mk w)
    | _ => none) = some v
  rw [jsParse_encodeList v.data [';']]
  rfl

/-- C6: for every input value — embedded double quotes, newlines, other
control characters and non-ASCII included — both script-injected fill
operations leave the field holding exactly the input: the injected
script always tokenises as one well-formed string-literal assignment
(never broken by premature termination or an unescaped control
character) and decodes to the original value. -/
theorem C6_js_fill_escapes_roundtrip (page : Page)
    (name placeholder value : String)
    (e1 : Element) (es1 : List Element)
    (hw1 : page.wait_ok By.name name = true)
    (hm1 : page.found By.name name = e1 :: es1)
    (e2 : Element) (es2 : List Element)
    (hw2 : page.wait_ok By.xpath
      ("//input[@placeholder=" ++ sq ++ placeholder ++ sq ++ "]") = true)
    (hm2 : page.found By.xpath
      ("//input[@placeholder=" ++ sq ++ placeholder ++ sq ++ "]") = e2 :: es2) :
    (fill_input_by_name_js page name value).2 = .ok (some value) ∧
    (fill_input_by_placeholder_js page placeholder value).2 = .ok (some value) := by
  constructor
  · simp only [fill_input_by_name_js,
      find_element_ok page By.name name e1 es1 hw1 hm1]
    simp [execute_set_value_roundtrip value]
  · simp only [fill_input_by_placeholder_js,
      find_element_ok page By.xpath
        ("//input[@placeholder=" ++ sq ++ placeholder ++ sq ++ "]")
        e2 es2 hw2 hm2]
    simp [execute_set_value_roundtrip value]

/-- C6 witness: the spec's example value, a string with an embedded
double quote and a newline, round-trips exactly through both JS fill
paths on a concrete page. -/
theorem C6_witness :
    (fill_input_by_name_js onePage "email" "va\"lue\nX").2 =
      .ok (some "va\"lue\nX") ∧
    (fill_input_by_placeholder_js onePage "Email" "va\"lue\nX").2 =
      .ok (some "va\"lue\nX") :=
  C6_js_fill_escapes_roundtrip onePage "email" "Email" "va\"lue\nX"
    {} [] rfl rfl {} [] rfl rfl

end SeleniumFrame
